import Mathlib

/-!
# Verification of core jgenesis components

A shallow embedding of selected components of the jgenesis multi-console
emulator, together with theorems settling the specification's claims about
them.  Machine integers are modelled as `Nat` with explicit `% 2^w` (or
`&&& mask`) wherever the Rust source wraps; Rust panics (`todo!`,
`unreachable!`, `.expect`) are modelled by `Option`/`Except` with `none`
(resp. `.error`) denoting the abort.
-/

set_option maxRecDepth 10000

namespace JGen

/-! ## Genesis Z80 bank register (`genesis-core/src/memory.rs`) -/

structure Z80BankRegister where
  bank_number : Nat
  current_bit : Nat
  deriving DecidableEq, Repr

namespace Z80BankRegister

/-- `Z80BankRegister::BITS` -/
def BITS : Nat := 9

/-- `Z80BankRegister::default()` (derived `Default`: all fields zero). -/
def default : Z80BankRegister := { bank_number := 0, current_bit := 0 }

/-- `Z80BankRegister::map_to_68k_address`:
`(self.bank_number << 15) | u32::from(z80_address & 0x7FFF)`. -/
def map_to_68k_address (r : Z80BankRegister) (z80_address : Nat) : Nat :=
  (r.bank_number <<< 15) ||| (z80_address &&& 0x7FFF)

/-- `Z80BankRegister::write_bit`:
`self.bank_number = (self.bank_number >> 1) | (u32::from(bit) << (Self::BITS - 1))`. -/
def write_bit (r : Z80BankRegister) (bit : Bool) : Z80BankRegister :=
  { r with bank_number := (r.bank_number >>> 1) ||| ((if bit then 1 else 0) <<< (BITS - 1)) }

/-- Iterated `write_bit`, for reasoning about arbitrary write sequences. -/
def write_bits (r : Z80BankRegister) : List Bool → Z80BankRegister
  | [] => r
  | b :: rest => write_bits (r.write_bit b) rest

end Z80BankRegister

/-! ## Genesis region detection (`genesis-core/src/api.rs`) -/

inductive GenesisRegion where
  | Americas
  | Japan
  | Europe
  deriving DecidableEq, Repr

/-- The value of `u8::from_str_radix(&c.to_string(), 16)` for the single
character `c = byte as char`: a hexadecimal digit parses, anything else is
an error (`none`). -/
def hexCharValue (b : Nat) : Option Nat :=
  if 0x30 ≤ b ∧ b ≤ 0x39 then some (b - 0x30)
  else if 0x61 ≤ b ∧ b ≤ 0x66 then some (b - 0x61 + 10)
  else if 0x41 ≤ b ∧ b ≤ 0x46 then some (b - 0x41 + 10)
  else none

/-- `GenesisRegion::from_rom`.  The outer `Option` models the slice
`&rom[0x1F0..0x1F3]`, which panics when the ROM is shorter than `0x1F3`
bytes; the inner `Option` is the function's own return type. -/
def GenesisRegion.from_rom (rom : List Nat) : Option (Option GenesisRegion) :=
  if rom.length < 0x1F3 then none
  else
    let region_bytes := [rom.getD 0x1F0 0, rom.getD 0x1F1 0, rom.getD 0x1F2 0]
    some
      (if region_bytes.contains 0x55 then some GenesisRegion.Americas
       else if region_bytes.contains 0x4A then some GenesisRegion.Japan
       else if region_bytes.contains 0x45 then some GenesisRegion.Europe
       else
         match hexCharValue (region_bytes.getD 0 0) with
         | none => none
         | some value =>
           if value.testBit 2 then some GenesisRegion.Americas
           else if value.testBit 0 then some GenesisRegion.Japan
           else if value.testBit 3 then some GenesisRegion.Europe
           else none)

/-- `GenesisRegion::version_bit`: `self != Self::Japan`. -/
def GenesisRegion.version_bit (r : GenesisRegion) : Bool :=
  r != GenesisRegion.Japan

/-! ## SNES CPU internal multiply/divide registers (`snes-core/src/memory.rs`)

Only the six fields touched by the `$4202`-`$4206` register arms are
modelled; every other arm of `CpuInternalRegisters::write_register` writes
exclusively to fields outside this record, so it is embedded as the
identity on these fields. -/

structure CpuInternalRegisters where
  multiply_operand_l : Nat
  multiply_operand_r : Nat
  multiply_product : Nat
  division_dividend : Nat
  division_divisor : Nat
  division_quotient : Nat
  deriving DecidableEq, Repr

/-- The multiply/divide fields of `CpuInternalRegisters::new()`. -/
def CpuInternalRegisters.new : CpuInternalRegisters :=
  { multiply_operand_l := 0xFF
    multiply_operand_r := 0xFF
    multiply_product := 0
    division_dividend := 0xFFFF
    division_divisor := 0xFF
    division_quotient := 0 }

/-- `CpuInternalRegisters::write_register`, restricted to the
multiply/divide registers `$4202`-`$4206`.  `value` is the written byte
(`< 256`); products and quotients of 8/16-bit operands never exceed 16
bits, so the `u16` arithmetic of the source is exact here. -/
def CpuInternalRegisters.write_register (regs : CpuInternalRegisters) (address value : Nat) :
    CpuInternalRegisters :=
  if address = 0x4202 then
    -- WRMPYA: Multiplication 8-bit operand A
    { regs with multiply_operand_l := value }
  else if address = 0x4203 then
    -- WRMPYB: Multiplication 8-bit operand B + start multiplication
    { regs with
      multiply_operand_r := value
      multiply_product := regs.multiply_operand_l * value
      division_quotient := value }
  else if address = 0x4204 then
    -- WRDIVL: Division 16-bit dividend, low byte
    { regs with division_dividend := (regs.division_dividend &&& 0xFF00) ||| value }
  else if address = 0x4205 then
    -- WRDIVH: Division 16-bit dividend, high byte
    { regs with division_dividend := (regs.division_dividend &&& 0x00FF) ||| (value <<< 8) }
  else if address = 0x4206 then
    -- WRDIVB: Division 8-bit divisor + start division
    if value ≠ 0 then
      { regs with
        division_divisor := value
        division_quotient := regs.division_dividend / value
        multiply_product := regs.division_dividend % value }
    else
      -- Divide by 0 always sets quotient to $FFFF and remainder to dividend
      { regs with
        division_divisor := value
        division_quotient := 0xFFFF
        multiply_product := regs.division_dividend }
  else regs

/-! ## Game Boy APU pulse channel (`backend/gb-core/src/apu/pulse.rs`) -/

/-- Modelled from the spec: the pulse-channel frequency/period timer
(`apu/components.rs` is not among the sources).  Only the 11-bit frequency
register and the waveform phase index are needed by the sweep and sample
logic of `pulse.rs`. -/
structure PulseTimer where
  frequency : Nat
  phase : Nat
  deriving DecidableEq, Repr

/-- `PulseTimer::write_frequency` (modelled from the spec: stores the new
frequency into the timer's frequency register). -/
def PulseTimer.write_frequency (t : PulseTimer) (f : Nat) : PulseTimer :=
  { t with frequency := f }

/-- Modelled from the spec: the volume envelope (`apu/components.rs` is not
among the sources); only the current volume is read by `pulse.rs`. -/
structure Envelope where
  volume : Nat
  deriving DecidableEq, Repr

/-- Modelled from the spec: the length counter (`apu/components.rs` is not
among the sources); none of its behaviour is needed by the claims. -/
structure StandardLengthCounter where
  counter : Nat
  enabled : Bool
  deriving DecidableEq, Repr

inductive DutyCycle where
  | OneEighth
  | OneFourth
  | OneHalf
  | ThreeFourths
  deriving DecidableEq, Repr

/-- `DutyCycle::waveform_step`: bit `phase` of the duty waveform constant.
(`GetBit::bit` on `u8`; the phase index is always `< 8`.) -/
def DutyCycle.waveform_step : DutyCycle → Nat → Bool
  | DutyCycle.OneEighth, phase => Nat.testBit 0b10000000 phase
  | DutyCycle.OneFourth, phase => Nat.testBit 0b10000001 phase
  | DutyCycle.OneHalf, phase => Nat.testBit 0b11100001 phase
  | DutyCycle.ThreeFourths, phase => Nat.testBit 0b01111110 phase

structure SweepUnit where
  enabled : Bool
  shadow_frequency : Nat
  counter : Nat
  period : Nat
  shift : Nat
  negate : Bool
  calculated_with_negate_since_trigger : Bool
  deriving DecidableEq, Repr

namespace SweepUnit

/-- `SweepUnit::new()`. -/
def new : SweepUnit :=
  { enabled := false
    shadow_frequency := 0
    counter := 0
    period := 0
    shift := 0
    negate := false
    calculated_with_negate_since_trigger := false }

/-- `SweepUnit::counter_reload_value`: `if self.period == 0 { 8 } else { self.period }`. -/
def counter_reload_value (s : SweepUnit) : Nat :=
  if s.period = 0 then 8 else s.period

/-- `SweepUnit::calculate_next_frequency`.  Returns the computed `u16`
value together with the updated unit (the negate path latches
`calculated_with_negate_since_trigger`).  In the source,
`delta = shadow >> shift` and the negate path takes the two's complement
`(!delta).wrapping_add(1)`; the final `wrapping_add` is `% 2^16`. -/
def calculate_next_frequency (s : SweepUnit) : Nat × SweepUnit :=
  let delta := s.shadow_frequency >>> s.shift
  let delta2 := if s.negate then (65536 - delta % 65536) % 65536 else delta
  ((s.shadow_frequency + delta2) % 65536,
   if s.negate then { s with calculated_with_negate_since_trigger := true } else s)

/-- `SweepUnit::clock`.  The `u8` decrement `self.counter -= 1` is embedded
with wrapping semantics (`(counter + 255) % 256`); in every reachable state
the counter is positive when the unit is enabled, so the wrap never fires
in practice. -/
def clock (s : SweepUnit) (timer : PulseTimer) (channel_enabled : Bool) :
    SweepUnit × PulseTimer × Bool :=
  if !s.enabled then (s, timer, channel_enabled)
  else
    let counter := (s.counter + 255) % 256
    if counter ≠ 0 then ({ s with counter := counter }, timer, channel_enabled)
    else
      let s1 := { s with counter := s.counter_reload_value }
      if s1.period = 0 then
        -- Period of 0 disables sweep updates (but not the sweep unit counter)
        (s1, timer, channel_enabled)
      else
        let next : Nat × SweepUnit := s1.calculate_next_frequency
        if next.1 ≤ 2047 ∧ next.2.shift ≠ 0 then
          let s2 := { next.2 with shadow_frequency := next.1 }
          let timer2 := timer.write_frequency next.1
          -- When sweep adjusts frequency, it immediately runs another frequency
          -- calculation and will disable the channel if it overflows
          let next2 : Nat × SweepUnit := s2.calculate_next_frequency
          (next2.2, timer2, if next2.1 > 2047 then false else channel_enabled)
        else if next.1 > 2047 then (next.2, timer, false)
        else (next.2, timer, channel_enabled)

end SweepUnit

structure PulseChannel where
  duty_cycle : DutyCycle
  length_counter : StandardLengthCounter
  envelope : Envelope
  sweep : SweepUnit
  timer : PulseTimer
  channel_enabled : Bool
  dac_enabled : Bool
  deriving DecidableEq, Repr

/-- `PulseChannel::clock_sweep`: `self.sweep.clock(&mut self.timer, &mut self.channel_enabled)`. -/
def PulseChannel.clock_sweep (ch : PulseChannel) : PulseChannel :=
  let r := ch.sweep.clock ch.timer ch.channel_enabled
  { ch with sweep := r.1, timer := r.2.1, channel_enabled := r.2.2 }

/-- `PulseChannel::sample`.  `u8::from(waveform_step) * self.envelope.volume`. -/
def PulseChannel.sample (ch : PulseChannel) : Option Nat :=
  if !ch.dac_enabled then none
  else if !ch.channel_enabled then some 0
  else some ((if ch.duty_cycle.waveform_step ch.timer.phase then 1 else 0) * ch.envelope.volume)

/-! ## Sharp SM83 CPU (`backend/gb-core/src/sm83.rs`) -/

inductive InterruptType where
  | VBlank
  | LcdStatus
  | Timer
  | Serial
  | Joypad
  deriving DecidableEq, Repr

/-- `InterruptType::interrupt_vector`. -/
def InterruptType.interrupt_vector : InterruptType → Nat
  | InterruptType.VBlank => 0x0040
  | InterruptType.LcdStatus => 0x0048
  | InterruptType.Timer => 0x0050
  | InterruptType.Serial => 0x0058
  | InterruptType.Joypad => 0x0060

/-- Modelled from the spec: the IF/IE bit index of each interrupt source
(VBlank is the highest-priority, bit 0). -/
def InterruptType.flagBit : InterruptType → Nat
  | InterruptType.VBlank => 0
  | InterruptType.LcdStatus => 1
  | InterruptType.Timer => 2
  | InterruptType.Serial => 3
  | InterruptType.Joypad => 4

inductive GbBusEvent where
  | read (address value : Nat)
  | write (address value : Nat)
  | idle
  | ack (it : InterruptType)
  deriving DecidableEq, Repr

/-- Modelled from the spec: the SM83 bus (`sm83/bus.rs` is not among the
sources).  Memory is a flat byte store, the pending-interrupt state is the
pair of IF/IE request/enable bytes, and every bus call is also recorded in
an event trace so that theorems can speak about the exact sequence of
reads, writes, idles and interrupt acknowledgements a CPU step performs. -/
structure GbBus where
  mem : Nat → Nat
  ifReg : Nat
  ieReg : Nat
  events : List GbBusEvent

/-- `BusInterface::read`. -/
def GbBus.read (bus : GbBus) (address : Nat) : Nat × GbBus :=
  (bus.mem address,
   { bus with events := bus.events ++ [GbBusEvent.read address (bus.mem address)] })

/-- `BusInterface::write`. -/
def GbBus.write (bus : GbBus) (address value : Nat) : GbBus :=
  { bus with
    mem := fun a => if a = address then value else bus.mem a
    events := bus.events ++ [GbBusEvent.write address value] }

/-- `BusInterface::idle`. -/
def GbBus.idle (bus : GbBus) : GbBus :=
  { bus with events := bus.events ++ [GbBusEvent.idle] }

/-- Modelled from the spec: the highest-priority source among the pending
bits (`IF & IE`), VBlank (bit 0) first. -/
def pendingInterruptFrom (pending : Nat) : Option InterruptType :=
  if pending.testBit 0 then some InterruptType.VBlank
  else if pending.testBit 1 then some InterruptType.LcdStatus
  else if pending.testBit 2 then some InterruptType.Timer
  else if pending.testBit 3 then some InterruptType.Serial
  else if pending.testBit 4 then some InterruptType.Joypad
  else none

/-- Modelled from the spec: `BusInterface::highest_priority_interrupt`
returns the highest-priority source that is both requested (IF) and
enabled (IE). -/
def GbBus.highest_priority_interrupt (bus : GbBus) : Option InterruptType :=
  pendingInterruptFrom (bus.ifReg &&& bus.ieReg)

/-- Modelled from the spec: `BusInterface::acknowledge_interrupt` clears
exactly the acknowledged source's IF bit. -/
def GbBus.acknowledge_interrupt (bus : GbBus) (it : InterruptType) : GbBus :=
  { bus with
    ifReg := bus.ifReg &&& (0xFF ^^^ (1 <<< it.flagBit))
    events := bus.events ++ [GbBusEvent.ack it] }

structure Flags where
  zero : Bool
  subtract : Bool
  half_carry : Bool
  carry : Bool
  deriving DecidableEq, Repr

structure Registers where
  a : Nat
  f : Flags
  b : Nat
  c : Nat
  d : Nat
  e : Nat
  h : Nat
  l : Nat
  sp : Nat
  pc : Nat
  ime : Bool
  deriving DecidableEq, Repr

structure State where
  pending_ime_set : Bool
  handling_interrupt : Bool
  halted : Bool
  halt_bug_triggered : Bool
  executed_invalid_opcode : Bool
  deriving DecidableEq, Repr

structure Sm83 where
  registers : Registers
  state : State
  deriving DecidableEq, Repr

/-- The eleven invalid SM83 opcodes of the final `execute_opcode` arm. -/
def invalidOpcodes : List Nat :=
  [0xD3, 0xDB, 0xDD, 0xE3, 0xE4, 0xEB, 0xEC, 0xED, 0xF4, 0xFC, 0xFD]

namespace Sm83

/-- `Sm83::fetch_operand`: read at PC, then increment PC (`wrapping_add`). -/
def fetch_operand (cpu : Sm83) (bus : GbBus) : Nat × Sm83 × GbBus :=
  let r := bus.read cpu.registers.pc
  (r.1,
   { cpu with registers := { cpu.registers with pc := (cpu.registers.pc + 1) % 65536 } },
   r.2)

/-- `Sm83::push_stack`: decrement SP (`wrapping_sub`), then write at SP. -/
def push_stack (cpu : Sm83) (bus : GbBus) (value : Nat) : Sm83 × GbBus :=
  let sp := (cpu.registers.sp + 65535) % 65536
  ({ cpu with registers := { cpu.registers with sp := sp } }, bus.write sp value)

/-- `Sm83::push_stack_u16`: push the MSB, then the LSB. -/
def push_stack_u16 (cpu : Sm83) (bus : GbBus) (value : Nat) : Sm83 × GbBus :=
  let r1 := cpu.push_stack bus ((value >>> 8) &&& 0xFF)
  r1.1.push_stack r1.2 (value &&& 0xFF)

/-- `Sm83::execute_interrupt_service_routine`.  `none` models the
`.expect` panic when no interrupt is pending (never reached from
`execute_instruction`, which only enters the routine after a successful
poll). -/
def execute_interrupt_service_routine (cpu : Sm83) (bus : GbBus) : Option (Sm83 × GbBus) :=
  -- The CPU idles for 2 M-cycles at the start of the interrupt service routine
  let bus := bus.idle.idle
  let r := cpu.push_stack_u16 bus cpu.registers.pc
  match r.2.highest_priority_interrupt with
  | none => none
  | some interrupt_type =>
    let bus := r.2.acknowledge_interrupt interrupt_type
    let cpu :=
      { r.1 with
        registers :=
          { r.1.registers with pc := interrupt_type.interrupt_vector, ime := false } }
    -- One more idle cycle at the end of the routine
    some (cpu, bus.idle)

/-- `Sm83::poll_for_interrupts`. -/
def poll_for_interrupts (cpu : Sm83) (bus : GbBus) : Sm83 :=
  { cpu with
    state :=
      { cpu.state with
        handling_interrupt :=
          cpu.registers.ime && bus.highest_priority_interrupt.isSome } }

/-- `Sm83::execute_opcode`.  The eleven invalid opcodes are embedded from
the source (log the error and set `executed_invalid_opcode`); every valid
arm dispatches into the `arithmetic`/`bits`/`flags`/`flow`/`load`
submodules, which are not among the sources, so valid execution is
abstracted as the `validExec` parameter.  The theorems below hold for
every `validExec`. -/
def execute_opcode (validExec : Nat → Sm83 → GbBus → Sm83 × GbBus)
    (cpu : Sm83) (bus : GbBus) (opcode : Nat) : Sm83 × GbBus :=
  if opcode ∈ invalidOpcodes then
    ({ cpu with state := { cpu.state with executed_invalid_opcode := true } }, bus)
  else validExec opcode cpu bus

/-- `Sm83::execute_instruction`.  Early `return`s are embedded as nested
branches, in source order: frozen check, HALT handling, interrupt service,
delayed-EI commit, fetch/execute, interrupt poll. -/
def execute_instruction (validExec : Nat → Sm83 → GbBus → Sm83 × GbBus)
    (cpu : Sm83) (bus : GbBus) : Option (Sm83 × GbBus) :=
  if cpu.state.executed_invalid_opcode then
    -- CPU is frozen
    some (cpu, bus.idle)
  else if cpu.state.halted && !cpu.state.handling_interrupt
      && bus.highest_priority_interrupt.isNone then
    some (cpu, bus.idle)
  else
    let cpu1 :=
      if cpu.state.halted && !cpu.state.handling_interrupt then
        let c := { cpu with state := { cpu.state with halted := false } }
        if c.registers.ime then
          { c with state := { c.state with handling_interrupt := true } }
        else c
      else cpu
    if cpu1.state.handling_interrupt then
      match cpu1.execute_interrupt_service_routine bus with
      | none => none
      | some r =>
        some ({ r.1 with state := { r.1.state with handling_interrupt := false } }, r.2)
    else
      let cpu2 :=
        if cpu1.state.pending_ime_set then
          { cpu1 with
            registers := { cpu1.registers with ime := true }
            state := { cpu1.state with pending_ime_set := false } }
        else cpu1
      let f := cpu2.fetch_operand bus
      let e := execute_opcode validExec f.2.1 f.2.2 f.1
      some (e.1.poll_for_interrupts e.2, e.2)

end Sm83

/-! ## Genesis main bus (`genesis-core/src/memory.rs`)

The VDP, PSG, YM2612, input and external-cartridge-memory register APIs
live in files that are not among the sources; they are modelled from the
spec as total register-level state machines (reads return register
values, writes are recorded).  The bus routing itself — the address
decoding and every range arm — is embedded from `memory.rs`.  The bus
operations return `Option`: `none` models a Rust panic (`todo!` for the
unimplemented timer registers, `unreachable!` in the VDP byte-access
dispatch, and the Z80 bank-window lockup `panic!`). -/

/-- Modelled from the spec: the VDP register-level API used by the main
bus (data port, status, HV counter); writes are recorded. -/
structure Vdp where
  dataWord : Nat
  statusWord : Nat
  hvWord : Nat
  dataWrites : List Nat
  controlWrites : List Nat
  deriving DecidableEq, Repr

def Vdp.read_data (v : Vdp) : Nat := v.dataWord

def Vdp.read_status (v : Vdp) : Nat := v.statusWord

def Vdp.hv_counter (v : Vdp) : Nat := v.hvWord

def Vdp.write_data (v : Vdp) (w : Nat) : Vdp :=
  { v with dataWrites := v.dataWrites ++ [w] }

def Vdp.write_control (v : Vdp) (w : Nat) : Vdp :=
  { v with controlWrites := v.controlWrites ++ [w] }

/-- Modelled from the spec: the PSG register API (write-only). -/
structure Psg where
  writes : List Nat
  deriving DecidableEq, Repr

def Psg.write (p : Psg) (value : Nat) : Psg :=
  { p with writes := p.writes ++ [value] }

/-- Modelled from the spec: the YM2612 register API; all reads return the
single status register, writes to the four ports are recorded. -/
structure Ym2612 where
  register : Nat
  portWrites : List (Nat × Nat)
  deriving DecidableEq, Repr

def Ym2612.read_register (y : Ym2612) : Nat := y.register

def Ym2612.write_address_1 (y : Ym2612) (value : Nat) : Ym2612 :=
  { y with portWrites := y.portWrites ++ [(0, value)] }

def Ym2612.write_data_1 (y : Ym2612) (value : Nat) : Ym2612 :=
  { y with portWrites := y.portWrites ++ [(1, value)] }

def Ym2612.write_address_2 (y : Ym2612) (value : Nat) : Ym2612 :=
  { y with portWrites := y.portWrites ++ [(2, value)] }

def Ym2612.write_data_2 (y : Ym2612) (value : Nat) : Ym2612 :=
  { y with portWrites := y.portWrites ++ [(3, value)] }

/-- Modelled from the spec: the controller-port register API. -/
structure InputState where
  p1_data : Nat
  p2_data : Nat
  p1_ctrl : Nat
  p2_ctrl : Nat
  deriving DecidableEq, Repr

/-- Modelled from the spec: optional battery-backed cartridge RAM mapped
into a fixed address range, with a dirty flag set on every write. -/
structure ExternalMemory where
  mapped : Bool
  ram_start : Nat
  ram_end : Nat
  ram : Nat → Nat
  persistent : Bool
  dirty : Bool

def ExternalMemory.read_byte (em : ExternalMemory) (address : Nat) : Option Nat :=
  if em.mapped ∧ em.ram_start ≤ address ∧ address ≤ em.ram_end then
    some (em.ram address)
  else none

def ExternalMemory.read_word (em : ExternalMemory) (address : Nat) : Option Nat :=
  if em.mapped ∧ em.ram_start ≤ address ∧ address ≤ em.ram_end then
    some ((em.ram address <<< 8) ||| em.ram (address + 1))
  else none

def ExternalMemory.write_byte (em : ExternalMemory) (address value : Nat) : ExternalMemory :=
  if em.mapped ∧ em.ram_start ≤ address ∧ address ≤ em.ram_end then
    { em with ram := fun a => if a = address then value else em.ram a, dirty := true }
  else em

def ExternalMemory.write_word (em : ExternalMemory) (address value : Nat) : ExternalMemory :=
  if em.mapped ∧ em.ram_start ≤ address ∧ address ≤ em.ram_end then
    { em with
      ram := fun a =>
        if a = address + 1 then value &&& 0xFF
        else if a = address then (value >>> 8) &&& 0xFF
        else em.ram a
      dirty := true }
  else em

structure Cartridge where
  rom : List Nat
  external_memory : ExternalMemory
  rom_address_mask : Nat
  region : GenesisRegion

namespace Cartridge

/-- `Cartridge::read_byte`: external memory first, then
`self.rom.get(address).unwrap_or(0xFF)`. -/
def read_byte (c : Cartridge) (address : Nat) : Nat :=
  match c.external_memory.read_byte address with
  | some byte => byte
  | none => c.rom.getD address 0xFF

/-- `Cartridge::read_word`: external memory first, then a big-endian pair
of byte reads (`address.wrapping_add(1)` is `% 2^32`). -/
def read_word (c : Cartridge) (address : Nat) : Nat :=
  match c.external_memory.read_word address with
  | some word => word
  | none => (c.read_byte address <<< 8) ||| c.read_byte ((address + 1) % 4294967296)

def write_byte (c : Cartridge) (address value : Nat) : Cartridge :=
  { c with external_memory := c.external_memory.write_byte address value }

def write_word (c : Cartridge) (address value : Nat) : Cartridge :=
  { c with external_memory := c.external_memory.write_word address value }

end Cartridge

structure Signals where
  z80_busreq : Bool
  z80_reset : Bool
  deriving DecidableEq, Repr

/-- `Memory`.  `main_ram` (64KB) and `audio_ram` (8KB) are byte stores;
every access in `memory.rs` masks the index (`& 0xFFFF`, `& 0x1FFF`), so
the backing `Vec`s are never indexed out of bounds. -/
structure GenMemory where
  cartridge : Cartridge
  main_ram : Nat → Nat
  audio_ram : Nat → Nat
  z80_bank_register : Z80BankRegister
  signals : Signals

inductive GenesisTimingMode where
  | Ntsc
  | Pal
  deriving DecidableEq, Repr

structure MainBus where
  memory : GenMemory
  vdp : Vdp
  psg : Psg
  ym2612 : Ym2612
  input : InputState
  timing_mode : GenesisTimingMode
  z80_stalled : Bool

namespace MainBus

/-- `MainBus::read_io_register`. -/
def read_io_register (b : MainBus) (address : Nat) : Nat :=
  if address = 0xA10000 ∨ address = 0xA10001 then
    0x20 ||| ((if b.memory.cartridge.region.version_bit then 1 else 0) <<< 7)
      ||| ((if b.timing_mode = GenesisTimingMode.Pal then 1 else 0) <<< 6)
  else if address = 0xA10002 ∨ address = 0xA10003 then b.input.p1_data
  else if address = 0xA10004 ∨ address = 0xA10005 then b.input.p2_data
  else if address = 0xA10008 ∨ address = 0xA10009 then b.input.p1_ctrl
  else if address = 0xA1000A ∨ address = 0xA1000B then b.input.p2_ctrl
  else if address = 0xA1000E ∨ address = 0xA1000F ∨ address = 0xA10014
      ∨ address = 0xA10015 ∨ address = 0xA1001A ∨ address = 0xA1001B then
    -- TxData registers return 0xFF by default
    0xFF
  else
    -- Other I/O registers return 0x00 by default
    0x00

/-- `MainBus::write_io_register`. -/
def write_io_register (b : MainBus) (address value : Nat) : MainBus :=
  if address = 0xA10002 ∨ address = 0xA10003 then
    { b with input := { b.input with p1_data := value } }
  else if address = 0xA10004 ∨ address = 0xA10005 then
    { b with input := { b.input with p2_data := value } }
  else if address = 0xA10008 ∨ address = 0xA10009 then
    { b with input := { b.input with p1_ctrl := value } }
  else if address = 0xA1000A ∨ address = 0xA1000B then
    { b with input := { b.input with p2_ctrl := value } }
  else b

/-- `MainBus::read_vdp_byte`, a match over `address & 0x1F`.  The listed
arms cover `0x00`-`0x0B` and `0x10`-`0x1F`; offsets `0x0C`-`0x0F` fall
through to `unreachable!("address & 0x1F is always <= 0x1F")`, a panic
(`none`) — the message asserts the arm is dead, but these offsets are
reachable. -/
def read_vdp_byte (b : MainBus) (address : Nat) : Option (Nat × MainBus) :=
  let x := address &&& 0x1F
  if x = 0x00 ∨ x = 0x02 then some ((b.vdp.read_data >>> 8) &&& 0xFF, b)
  else if x = 0x01 ∨ x = 0x03 then some (b.vdp.read_data &&& 0xFF, b)
  else if x = 0x04 ∨ x = 0x06 then some ((b.vdp.read_status >>> 8) &&& 0xFF, b)
  else if x = 0x05 ∨ x = 0x07 then some (b.vdp.read_status &&& 0xFF, b)
  else if x = 0x08 ∨ x = 0x0A then some ((b.vdp.hv_counter >>> 8) &&& 0xFF, b)
  else if x = 0x09 ∨ x = 0x0B then some (b.vdp.hv_counter &&& 0xFF, b)
  else if 0x10 ≤ x ∧ x ≤ 0x1F then
    -- PSG / unused space; PSG is not readable
    some (0xFF, b)
  else none

/-- `MainBus::write_vdp_byte`, a match over `address & 0x1F` (byte-size
VDP writes duplicate the byte into a word).  The listed arms cover
`0x00`-`0x07` and `0x10`-`0x1F`; offsets `0x08`-`0x0F` fall through to
`unreachable!`, a panic (`none`), although they are reachable. -/
def write_vdp_byte (b : MainBus) (address value : Nat) : Option MainBus :=
  let vdp_word := value ||| (value <<< 8)
  let x := address &&& 0x1F
  if x ≤ 0x03 then some { b with vdp := b.vdp.write_data vdp_word }
  else if 0x04 ≤ x ∧ x ≤ 0x07 then some { b with vdp := b.vdp.write_control vdp_word }
  else if x = 0x11 ∨ x = 0x13 ∨ x = 0x15 ∨ x = 0x17 then
    some { b with psg := b.psg.write value }
  else if x = 0x10 ∨ x = 0x12 ∨ x = 0x14 ∨ x = 0x16 ∨ (0x18 ≤ x ∧ x ≤ 0x1F) then
    some b
  else none

/-- `z80_emu::BusInterface::read_memory` restricted to `$0000`-`$7FFF`.
The 68k bus only ever enters the Z80 memory map with a masked address
(`address & 0x7FFF`), which can never reach the `$8000`-`$FFFF` bank
window, so this restriction is what `MainBus::read_byte` dispatches to;
the window arm is `z80_read_memory` below.  Addresses above `$7FFF` hit
the dead `none` branch. -/
def z80_read_memory_low (b : MainBus) (address : Nat) : Option (Nat × MainBus) :=
  if address ≤ 0x3FFF then
    -- Z80 RAM (mirrored at $2000-$3FFF)
    some (b.memory.audio_ram (address &&& 0x1FFF), b)
  else if address ≤ 0x5FFF then
    -- YM2612 registers/ports; all YM2612 reads function identically
    some (b.ym2612.read_register, b)
  else if address ≤ 0x60FF then
    -- Bank number register
    some (0xFF, b)
  else if address ≤ 0x7EFF then
    -- Unused address space
    some (0xFF, b)
  else if address ≤ 0x7F1F then
    -- VDP ports
    b.read_vdp_byte address
  else if address ≤ 0x7FFF then
    -- Invalid addresses
    some (0xFF, b)
  else none

/-- `z80_emu::BusInterface::write_memory` restricted to `$0000`-`$7FFF`
(see `z80_read_memory_low`). -/
def z80_write_memory_low (b : MainBus) (address value : Nat) : Option MainBus :=
  if address ≤ 0x3FFF then
    some
      { b with
        memory :=
          { b.memory with
            audio_ram := fun a =>
              if a = address &&& 0x1FFF then value else b.memory.audio_ram a } }
  else if address ≤ 0x5FFF then
    -- YM2612 registers/ports (mirrored every 4 addresses)
    let port := address &&& 0x03
    if port = 0x00 then some { b with ym2612 := b.ym2612.write_address_1 value }
    else if port = 0x01 then some { b with ym2612 := b.ym2612.write_data_1 value }
    else if port = 0x02 then some { b with ym2612 := b.ym2612.write_address_2 value }
    else some { b with ym2612 := b.ym2612.write_data_2 value }
  else if address ≤ 0x60FF then
    some
      { b with
        memory :=
          { b.memory with
            z80_bank_register :=
              b.memory.z80_bank_register.write_bit (value.testBit 0) } }
  else if address ≤ 0x7EFF then
    -- Unused addresses
    some b
  else if address ≤ 0x7F1F then
    -- VDP addresses
    b.write_vdp_byte address value
  else if address ≤ 0x7FFF then
    -- Invalid addresses
    some b
  else none

/-- `m68000_emu::BusInterface::read_byte`.  The match arms of the source,
in order; disjoint ranges become an if-chain.  `$A13000`-`$A130FF` is
`todo!("timer register")`, a panic (`none`). -/
def read_byte (b : MainBus) (address : Nat) : Option (Nat × MainBus) :=
  let address := address &&& 0xFFFFFF
  if address ≤ 0x3FFFFF then some (b.memory.cartridge.read_byte address, b)
  else if 0xA00000 ≤ address ∧ address ≤ 0xA0FFFF then
    -- Z80 memory map; for 68k access, $8000-$FFFF mirrors $0000-$7FFF
    b.z80_read_memory_low (address &&& 0x7FFF)
  else if 0xA10000 ≤ address ∧ address ≤ 0xA1001F then
    some (b.read_io_register address, b)
  else if 0xA11100 ≤ address ∧ address ≤ 0xA11101 then
    some (if b.z80_stalled then 0 else 1, b)
  else if 0xA13000 ≤ address ∧ address ≤ 0xA130FF then none
  else if 0xC00000 ≤ address ∧ address ≤ 0xC0001F then b.read_vdp_byte address
  else if 0xE00000 ≤ address then some (b.memory.main_ram (address &&& 0xFFFF), b)
  else some (0xFF, b)

/-- `m68000_emu::BusInterface::read_word`. -/
def read_word (b : MainBus) (address : Nat) : Option (Nat × MainBus) :=
  let address := address &&& 0xFFFFFF
  if address ≤ 0x3FFFFF then some (b.memory.cartridge.read_word address, b)
  else if 0xA00000 ≤ address ∧ address ≤ 0xA0FFFF then
    -- All Z80 access is byte-size; word reads mirror the byte in both MSB and LSB
    match b.read_byte address with
    | none => none
    | some r => some (r.1 ||| (r.1 <<< 8), r.2)
  else if 0xA10000 ≤ address ∧ address ≤ 0xA1001F then
    some (b.read_io_register address, b)
  else if 0xA11100 ≤ address ∧ address ≤ 0xA11101 then
    let byte := if b.z80_stalled then 0 else 1
    some (byte ||| (byte <<< 8), b)
  else if 0xA13000 ≤ address ∧ address ≤ 0xA130FF then none
  else if 0xC00000 ≤ address ∧ address ≤ 0xC00003 then some (b.vdp.read_data, b)
  else if 0xC00004 ≤ address ∧ address ≤ 0xC00007 then some (b.vdp.read_status, b)
  else if 0xC00008 ≤ address ∧ address ≤ 0xC0000F then some (b.vdp.hv_counter, b)
  else if 0xE00000 ≤ address then
    let ram_addr := address &&& 0xFFFF
    some ((b.memory.main_ram ram_addr <<< 8)
        ||| b.memory.main_ram ((ram_addr + 1) &&& 0xFFFF), b)
  else some (0xFFFF, b)

/-- `m68000_emu::BusInterface::write_byte`. -/
def write_byte (b : MainBus) (address value : Nat) : Option MainBus :=
  let address := address &&& 0xFFFFFF
  if address ≤ 0x3FFFFF then
    some
      { b with
        memory := { b.memory with cartridge := b.memory.cartridge.write_byte address value } }
  else if 0xA00000 ≤ address ∧ address ≤ 0xA0FFFF then
    -- Z80 memory map; for 68k access, $8000-$FFFF mirrors $0000-$7FFF
    b.z80_write_memory_low (address &&& 0x7FFF) value
  else if 0xA10000 ≤ address ∧ address ≤ 0xA1001F then
    some (b.write_io_register address value)
  else if 0xA11100 ≤ address ∧ address ≤ 0xA11101 then
    some
      { b with
        memory :=
          { b.memory with
            signals := { b.memory.signals with z80_busreq := value.testBit 0 } } }
  else if 0xA11200 ≤ address ∧ address ≤ 0xA11201 then
    some
      { b with
        memory :=
          { b.memory with
            signals := { b.memory.signals with z80_reset := !value.testBit 0 } } }
  else if 0xA13000 ≤ address ∧ address ≤ 0xA130FF then none
  else if 0xC00000 ≤ address ∧ address ≤ 0xC0001F then b.write_vdp_byte address value
  else if 0xE00000 ≤ address then
    some
      { b with
        memory :=
          { b.memory with
            main_ram := fun a =>
              if a = address &&& 0xFFFF then value else b.memory.main_ram a } }
  else some b

/-- `m68000_emu::BusInterface::write_word`. -/
def write_word (b : MainBus) (address value : Nat) : Option MainBus :=
  let address := address &&& 0xFFFFFF
  if address ≤ 0x3FFFFF then
    some
      { b with
        memory := { b.memory with cartridge := b.memory.cartridge.write_word address value } }
  else if 0xA00000 ≤ address ∧ address ≤ 0xA0FFFF then
    -- Z80 memory map; word-size writes write the MSB as a byte-size write
    b.write_byte address ((value >>> 8) &&& 0xFF)
  else if 0xA10000 ≤ address ∧ address ≤ 0xA1001F then
    some (b.write_io_register address (value &&& 0xFF))
  else if 0xA11100 ≤ address ∧ address ≤ 0xA11101 then
    some
      { b with
        memory :=
          { b.memory with
            signals := { b.memory.signals with z80_busreq := value.testBit 8 } } }
  else if 0xA11200 ≤ address ∧ address ≤ 0xA11201 then
    some
      { b with
        memory :=
          { b.memory with
            signals := { b.memory.signals with z80_reset := !value.testBit 8 } } }
  else if 0xA13000 ≤ address ∧ address ≤ 0xA130FF then none
  else if 0xC00000 ≤ address ∧ address ≤ 0xC00003 then
    some { b with vdp := b.vdp.write_data value }
  else if 0xC00004 ≤ address ∧ address ≤ 0xC00007 then
    some { b with vdp := b.vdp.write_control value }
  else if 0xE00000 ≤ address then
    let ram_addr := address &&& 0xFFFF
    some
      { b with
        memory :=
          { b.memory with
            main_ram := fun a =>
              if a = (ram_addr + 1) &&& 0xFFFF then value &&& 0xFF
              else if a = ram_addr then (value >>> 8) &&& 0xFF
              else b.memory.main_ram a } }
  else some b

/-- The full `z80_emu::BusInterface::read_memory`: for `$8000`-`$FFFF` the
bank window maps onto the 68k bus; a mapped address inside the Z80's own
reserved window `$A00000`-`$A0FFFF` is a hardware lockup, a `panic!`
(`none`). -/
def z80_read_memory (b : MainBus) (address : Nat) : Option (Nat × MainBus) :=
  if address ≤ 0x7FFF then b.z80_read_memory_low address
  else
    let m68k_addr := b.memory.z80_bank_register.map_to_68k_address address
    if ¬(0xA00000 ≤ m68k_addr ∧ m68k_addr ≤ 0xA0FFFF) then b.read_byte m68k_addr
    else none

/-- The full `z80_emu::BusInterface::write_memory` (see `z80_read_memory`). -/
def z80_write_memory (b : MainBus) (address value : Nat) : Option MainBus :=
  if address ≤ 0x7FFF then b.z80_write_memory_low address value
  else
    let m68k_addr := b.memory.z80_bank_register.map_to_68k_address address
    if ¬(0xA00000 ≤ m68k_addr ∧ m68k_addr ≤ 0xA0FFFF) then b.write_byte m68k_addr value
    else none

end MainBus

/-! ### Panic and open-bus address sets of the main bus

The precise sets of 24-bit addresses on which each bus operation aborts
(`todo!`/`unreachable!`), and the sets that fall through to each
operation's open-bus `_` arm. -/

/-- Addresses where a byte-size VDP access reaches the VDP dispatch with
`address & 0x1F` in the unhandled read arms `0x0C`-`0x0F`. -/
def vdpByteReadHole (m : Nat) : Prop :=
  0x0C ≤ m &&& 0x1F ∧ m &&& 0x1F ≤ 0x0F

/-- Addresses where a byte-size VDP access reaches the VDP dispatch with
`address & 0x1F` in the unhandled write arms `0x08`-`0x0F`. -/
def vdpByteWriteHole (m : Nat) : Prop :=
  0x08 ≤ m &&& 0x1F ∧ m &&& 0x1F ≤ 0x0F

/-- The masked addresses on which `MainBus::read_byte` panics: the
`todo!` timer range, and the VDP read holes reachable directly
(`$C00000`-`$C0001F`) or through the Z80 VDP-port mirror
(`$A00000`-`$A0FFFF` with `address & 0x7FFF` in `$7F00`-`$7F1F`). -/
def readBytePanics (m : Nat) : Prop :=
  (0xA13000 ≤ m ∧ m ≤ 0xA130FF)
  ∨ (0xC00000 ≤ m ∧ m ≤ 0xC0001F ∧ vdpByteReadHole m)
  ∨ (0xA00000 ≤ m ∧ m ≤ 0xA0FFFF ∧ 0x7F00 ≤ m &&& 0x7FFF ∧ m &&& 0x7FFF ≤ 0x7F1F
      ∧ vdpByteReadHole m)

/-- The masked addresses on which `MainBus::write_byte` panics. -/
def writeBytePanics (m : Nat) : Prop :=
  (0xA13000 ≤ m ∧ m ≤ 0xA130FF)
  ∨ (0xC00000 ≤ m ∧ m ≤ 0xC0001F ∧ vdpByteWriteHole m)
  ∨ (0xA00000 ≤ m ∧ m ≤ 0xA0FFFF ∧ 0x7F00 ≤ m &&& 0x7FFF ∧ m &&& 0x7FFF ≤ 0x7F1F
      ∧ vdpByteWriteHole m)

/-- The masked addresses on which `MainBus::read_word` panics: the timer
range, and the Z80-window mirror of the byte-read holes (word reads of
the Z80 range delegate to `read_byte`; the direct VDP word arms are
total). -/
def readWordPanics (m : Nat) : Prop :=
  (0xA13000 ≤ m ∧ m ≤ 0xA130FF)
  ∨ (0xA00000 ≤ m ∧ m ≤ 0xA0FFFF ∧ 0x7F00 ≤ m &&& 0x7FFF ∧ m &&& 0x7FFF ≤ 0x7F1F
      ∧ vdpByteReadHole m)

/-- The masked addresses on which `MainBus::write_word` panics. -/
def writeWordPanics (m : Nat) : Prop :=
  (0xA13000 ≤ m ∧ m ≤ 0xA130FF)
  ∨ (0xA00000 ≤ m ∧ m ≤ 0xA0FFFF ∧ 0x7F00 ≤ m &&& 0x7FFF ∧ m &&& 0x7FFF ≤ 0x7F1F
      ∧ vdpByteWriteHole m)

/-- Masked addresses that fall through to the `_ => 0xFF` arm of
`MainBus::read_byte` (no mapped owner). -/
def readByteUnmapped (m : Nat) : Prop :=
  ¬(m ≤ 0x3FFFFF) ∧ ¬(0xA00000 ≤ m ∧ m ≤ 0xA0FFFF) ∧ ¬(0xA10000 ≤ m ∧ m ≤ 0xA1001F)
  ∧ ¬(0xA11100 ≤ m ∧ m ≤ 0xA11101) ∧ ¬(0xA13000 ≤ m ∧ m ≤ 0xA130FF)
  ∧ ¬(0xC00000 ≤ m ∧ m ≤ 0xC0001F) ∧ ¬(0xE00000 ≤ m)

/-- Masked addresses that fall through to the `_ => 0xFFFF` arm of
`MainBus::read_word`. -/
def readWordUnmapped (m : Nat) : Prop :=
  ¬(m ≤ 0x3FFFFF) ∧ ¬(0xA00000 ≤ m ∧ m ≤ 0xA0FFFF) ∧ ¬(0xA10000 ≤ m ∧ m ≤ 0xA1001F)
  ∧ ¬(0xA11100 ≤ m ∧ m ≤ 0xA11101) ∧ ¬(0xA13000 ≤ m ∧ m ≤ 0xA130FF)
  ∧ ¬(0xC00000 ≤ m ∧ m ≤ 0xC0000F) ∧ ¬(0xE00000 ≤ m)

/-- Masked addresses that fall through to the `_ => {}` arm of
`MainBus::write_byte`. -/
def writeByteUnmapped (m : Nat) : Prop :=
  ¬(m ≤ 0x3FFFFF) ∧ ¬(0xA00000 ≤ m ∧ m ≤ 0xA0FFFF) ∧ ¬(0xA10000 ≤ m ∧ m ≤ 0xA1001F)
  ∧ ¬(0xA11100 ≤ m ∧ m ≤ 0xA11101) ∧ ¬(0xA11200 ≤ m ∧ m ≤ 0xA11201)
  ∧ ¬(0xA13000 ≤ m ∧ m ≤ 0xA130FF) ∧ ¬(0xC00000 ≤ m ∧ m ≤ 0xC0001F) ∧ ¬(0xE00000 ≤ m)

/-- Masked addresses that fall through to the `_ => {}` arm of
`MainBus::write_word`. -/
def writeWordUnmapped (m : Nat) : Prop :=
  ¬(m ≤ 0x3FFFFF) ∧ ¬(0xA00000 ≤ m ∧ m ≤ 0xA0FFFF) ∧ ¬(0xA10000 ≤ m ∧ m ≤ 0xA1001F)
  ∧ ¬(0xA11100 ≤ m ∧ m ≤ 0xA11101) ∧ ¬(0xA11200 ≤ m ∧ m ≤ 0xA11201)
  ∧ ¬(0xA13000 ≤ m ∧ m ≤ 0xA130FF) ∧ ¬(0xC00000 ≤ m ∧ m ≤ 0xC00007) ∧ ¬(0xE00000 ≤ m)

/-! ## Driver ticks: frame-completion block (`genesis-core/src/api.rs`,
`smsgg-core/src/api.rs`)

The cartridge-RAM persistence logic of the two drivers' `tick` methods,
embedded at the granularity of the frame-complete branch.  Whether the
current tick completed a video frame (`VdpTickEffect::FrameComplete`),
and whether each external collaborator call succeeds, are inputs; the
list of `persist_save` calls made (each with the RAM contents passed) is
an output.  The cartridge-RAM dirty/persistent protocol lives in files
that are not among the sources and is modelled from the spec: a dirty
flag set on writes and a `get_and_clear` accessor. -/

inductive TickEffect where
  | None
  | FrameRendered
  deriving DecidableEq, Repr

inductive GenesisError where
  | Render
  | Audio
  | Save
  deriving DecidableEq, Repr

inductive SmsGgError where
  | Render
  | Audio
  | SaveWrite
  deriving DecidableEq, Repr

/-- Modelled from the spec: the cartridge-RAM state the Genesis driver's
persistence block reads (`is_external_ram_persistent`,
`get_and_clear_external_ram_dirty`, `external_ram`). -/
structure GenSaveRam where
  persistent : Bool
  dirty : Bool
  ram : List Nat
  deriving DecidableEq, Repr

/-- The frame-completion block of `GenesisEmulator::tick` (`api.rs`):
on `FrameComplete`, render, flush audio, then — when the external RAM is
persistent and `get_and_clear` returns dirty (clearing the flag as a side
effect) and the RAM is non-empty — call `persist_save` once with the RAM
contents.  Returns the updated RAM state, the `persist_save` calls made,
and the tick effect; a failing collaborator aborts the rest of the block
(`.error`). -/
def genesisTickFrameBlock (mem : GenSaveRam)
    (frameComplete renderOk audioOk saveOk : Bool) :
    Except GenesisError (GenSaveRam × List (List Nat) × TickEffect) :=
  if frameComplete then
    if !renderOk then Except.error GenesisError.Render
    else if !audioOk then Except.error GenesisError.Audio
    else if mem.persistent then
      -- `is_external_ram_persistent() && get_and_clear_external_ram_dirty()`:
      -- the dirty flag is cleared (only) when the RAM is persistent
      let wasDirty := mem.dirty
      let mem := { mem with dirty := false }
      if wasDirty then
        if mem.ram ≠ [] then
          if saveOk then Except.ok (mem, [mem.ram], TickEffect.FrameRendered)
          else Except.error GenesisError.Save
        else Except.ok (mem, [], TickEffect.FrameRendered)
      else Except.ok (mem, [], TickEffect.FrameRendered)
    else Except.ok (mem, [], TickEffect.FrameRendered)
  else Except.ok (mem, [], TickEffect.None)

/-- The frame-completion block of `SmsGgEmulator::tick` (`api.rs`): on
`FrameComplete`, render, then increment `frame_count`; `persist_save` is
called (and the dirty flag cleared first) only when
`frame_count % 60 == 0 && cartridge_has_battery() && cartridge_ram_dirty()`.
Returns the new frame count, the new dirty flag, and the `persist_save`
calls made. -/
def smsggTickFrameBlock (frame_count : Nat) (battery dirty : Bool) (ram : List Nat)
    (frameComplete renderOk saveOk : Bool) :
    Except SmsGgError (Nat × Bool × List (List Nat)) :=
  if frameComplete then
    if !renderOk then Except.error SmsGgError.Render
    else
      let frame_count := frame_count + 1
      if frame_count % 60 = 0 ∧ battery ∧ dirty then
        if saveOk then Except.ok (frame_count, false, [ram])
        else Except.error SmsGgError.SaveWrite
      else Except.ok (frame_count, dirty, [])
  else Except.ok (frame_count, dirty, [])

/-- A concrete main-bus state (empty ROM, zeroed RAM and devices), used
to evaluate the bus operations at specific addresses. -/
def sampleMainBus : MainBus :=
  { memory :=
      { cartridge :=
          { rom := []
            external_memory :=
              { mapped := false, ram_start := 0, ram_end := 0, ram := fun _ => 0,
                persistent := false, dirty := false }
            rom_address_mask := 0
            region := GenesisRegion.Americas }
        main_ram := fun _ => 0
        audio_ram := fun _ => 0
        z80_bank_register := { bank_number := 0, current_bit := 0 }
        signals := { z80_busreq := false, z80_reset := true } }
    vdp := { dataWord := 0, statusWord := 0, hvWord := 0, dataWrites := [], controlWrites := [] }
    psg := { writes := [] }
    ym2612 := { register := 0, portWrites := [] }
    input := { p1_data := 0, p2_data := 0, p1_ctrl := 0, p2_ctrl := 0 }
    timing_mode := GenesisTimingMode.Ntsc
    z80_stalled := false }

/-! ## Theorems -/

/-! ### C10: the Z80 bank register is a 9-bit shift register -/

theorem Z80BankRegister.write_bit_bound (r : Z80BankRegister) (bit : Bool)
    (h : r.bank_number < 512) : (r.write_bit bit).bank_number < 512 := by
  have h1 : r.bank_number >>> 1 < 2 ^ 9 := by
    rw [Nat.shiftRight_eq_div_pow]
    omega
  have h2 : (if bit then 1 else 0) <<< (BITS - 1) < 2 ^ 9 := by
    cases bit <;> simp [BITS, Nat.shiftLeft_eq]
  exact Nat.or_lt_two_pow h1 h2

theorem Z80BankRegister.write_bits_bound (r : Z80BankRegister) (bits : List Bool)
    (h : r.bank_number < 512) : (r.write_bits bits).bank_number < 512 := by
  induction bits generalizing r with
  | nil => exact h
  | cons b rest ih => exact ih _ (r.write_bit_bound b h)

theorem Z80BankRegister.map_bound (r : Z80BankRegister) (z80_address : Nat)
    (h : r.bank_number < 512) : r.map_to_68k_address z80_address < 16777216 := by
  have h1 : r.bank_number <<< 15 < 2 ^ 24 := by
    rw [Nat.shiftLeft_eq]
    norm_num
    omega
  have h2 : z80_address &&& 0x7FFF < 2 ^ 24 := by
    have : z80_address &&& 0x7FFF ≤ 0x7FFF := Nat.and_le_right
    omega
  have := Nat.or_lt_two_pow h1 h2
  simpa using this

/-- C10: starting from the default Z80 bank register, any sequence of
`write_bit` calls keeps `bank_number` below `2^9`, and therefore
`map_to_68k_address` returns a valid 24-bit 68k bus address for every
16-bit Z80 address. -/
theorem z80_bank_register_is_9_bit (bits : List Bool) (z80_address : Nat)
    (_ha : z80_address < 65536) :
    (Z80BankRegister.default.write_bits bits).bank_number < 512 ∧
    (Z80BankRegister.default.write_bits bits).map_to_68k_address z80_address < 16777216 := by
  have hb : (Z80BankRegister.default.write_bits bits).bank_number < 512 :=
    Z80BankRegister.write_bits_bound _ bits (by simp [Z80BankRegister.default])
  exact ⟨hb, Z80BankRegister.map_bound _ _ hb⟩

theorem z80_bank_register_is_9_bit_witness :
    0xFFFF < 65536 ∧
    (Z80BankRegister.default.write_bits [true, true, true]).bank_number < 512 ∧
    (Z80BankRegister.default.write_bits [true, true, true]).map_to_68k_address 0xFFFF
      < 16777216 :=
  ⟨by decide, z80_bank_register_is_9_bit [true, true, true] 0xFFFF (by decide)⟩

/-! ### C9: SNES WRDIVB (`$4206`) division semantics -/

/-- C9: writing `v` to `$4206` starts the division: with `v = 0` the
quotient register becomes `$FFFF` and the multiply-product (remainder)
register becomes the dividend; with `v ≠ 0` quotient and remainder are the
exact unsigned quotient and remainder; the dividend register is unchanged
either way. -/
theorem snes_wrdivb_division (regs : CpuInternalRegisters) (value : Nat) :
    (value = 0 →
      (regs.write_register 0x4206 value).division_quotient = 0xFFFF ∧
      (regs.write_register 0x4206 value).multiply_product = regs.division_dividend) ∧
    (value ≠ 0 →
      (regs.write_register 0x4206 value).division_quotient
          = regs.division_dividend / value ∧
      (regs.write_register 0x4206 value).multiply_product
          = regs.division_dividend % value) ∧
    (regs.write_register 0x4206 value).division_dividend = regs.division_dividend := by
  unfold CpuInternalRegisters.write_register
  by_cases hv : value = 0
  · subst hv
    norm_num
  · norm_num [hv]

theorem snes_wrdivb_division_witness :
    (CpuInternalRegisters.new.write_register 0x4206 7).division_quotient
        = CpuInternalRegisters.new.division_dividend / 7 ∧
    (CpuInternalRegisters.new.write_register 0x4206 7).multiply_product
        = CpuInternalRegisters.new.division_dividend % 7 :=
  ((snes_wrdivb_division CpuInternalRegisters.new 7).2.1 (by decide))

/-! ### C8: a `'U'` in the region header always selects Americas -/

/-- C8: for every ROM long enough to have region header bytes at
`0x1F0`-`0x1F2`, if any of those three bytes is ASCII `'U'` (`0x55`) then
`GenesisRegion::from_rom` returns `Some(Americas)`, whatever the other
bytes are. -/
theorem genesis_region_u_selects_americas (rom : List Nat) (hlen : 0x1F3 ≤ rom.length)
    (hU : rom.getD 0x1F0 0 = 0x55 ∨ rom.getD 0x1F1 0 = 0x55 ∨ rom.getD 0x1F2 0 = 0x55) :
    GenesisRegion.from_rom rom = some (some GenesisRegion.Americas) := by
  unfold GenesisRegion.from_rom
  rw [if_neg (by omega)]
  have hmem : (0x55 : Nat) ∈ [rom.getD 0x1F0 0, rom.getD 0x1F1 0, rom.getD 0x1F2 0] := by
    rcases hU with h | h | h <;> rw [← h] <;> simp
  have hc : [rom.getD 0x1F0 0, rom.getD 0x1F1 0, rom.getD 0x1F2 0].contains 0x55 = true := by
    simpa using hmem
  simp only [hc, if_true]

theorem genesis_region_u_selects_americas_witness :
    0x1F3 ≤ (List.replicate 0x1F0 0 ++ [0x55, 0x45, 0x4A]).length ∧
    GenesisRegion.from_rom (List.replicate 0x1F0 0 ++ [0x55, 0x45, 0x4A])
      = some (some GenesisRegion.Americas) := by
  have hlen : 0x1F3 ≤ (List.replicate 0x1F0 0 ++ [0x55, 0x45, 0x4A]).length := by
    simp
  refine ⟨hlen, genesis_region_u_selects_americas _ hlen ?_⟩
  left
  rw [List.getD_eq_getElem?_getD, List.getElem?_append_right (by simp)]
  simp

/-! ### C6: pulse-channel `sample()` and the DAC -/

/-- C6: `sample()` returns `none` exactly when the DAC is disabled; with
the DAC enabled it returns `some v`, where `v` is 0 for a disabled
channel and otherwise the envelope volume gated by the duty waveform bit
at the current phase. -/
theorem pulse_sample_dac (ch : PulseChannel) :
    (ch.sample = none ↔ ch.dac_enabled = false) ∧
    (ch.dac_enabled = true →
      ch.sample = some
        (if ch.channel_enabled = false then 0
         else if ch.duty_cycle.waveform_step ch.timer.phase then ch.envelope.volume
         else 0)) := by
  unfold PulseChannel.sample
  constructor
  · cases hd : ch.dac_enabled <;> cases he : ch.channel_enabled <;> simp
  · intro hd
    rw [hd]
    cases he : ch.channel_enabled
    · simp
    · cases hw : ch.duty_cycle.waveform_step ch.timer.phase <;> simp

theorem pulse_sample_dac_witness :
    ({ duty_cycle := DutyCycle.OneHalf
       length_counter := { counter := 0, enabled := false }
       envelope := { volume := 15 }
       sweep := SweepUnit.new
       timer := { frequency := 0, phase := 0 }
       channel_enabled := true
       dac_enabled := true } : PulseChannel).sample = some 15 := by
  have h := (pulse_sample_dac
    { duty_cycle := DutyCycle.OneHalf
      length_counter := { counter := 0, enabled := false }
      envelope := { volume := 15 }
      sweep := SweepUnit.new
      timer := { frequency := 0, phase := 0 }
      channel_enabled := true
      dac_enabled := true }).2 rfl
  simpa using h

/-! ### C4/C5: sweep-clock overflow and double-check behaviour -/

theorem SweepUnit.calc_val (s : SweepUnit) :
    (s.calculate_next_frequency).1 =
      if s.negate then
        (s.shadow_frequency
          + (65536 - (s.shadow_frequency >>> s.shift) % 65536) % 65536) % 65536
      else (s.shadow_frequency + s.shadow_frequency >>> s.shift) % 65536 := by
  unfold SweepUnit.calculate_next_frequency
  split <;> simp_all

theorem SweepUnit.calc_snd (s : SweepUnit) :
    (s.calculate_next_frequency).2 =
      if s.negate then { s with calculated_with_negate_since_trigger := true } else s := by
  unfold SweepUnit.calculate_next_frequency
  split <;> simp_all

theorem SweepUnit.calc_snd_shadow (s : SweepUnit) :
    (s.calculate_next_frequency).2.shadow_frequency = s.shadow_frequency := by
  rw [SweepUnit.calc_snd]; split <;> rfl

theorem SweepUnit.calc_snd_shift (s : SweepUnit) :
    (s.calculate_next_frequency).2.shift = s.shift := by
  rw [SweepUnit.calc_snd]; split <;> rfl

theorem SweepUnit.calc_snd_negate (s : SweepUnit) :
    (s.calculate_next_frequency).2.negate = s.negate := by
  rw [SweepUnit.calc_snd]; split <;> rfl

theorem SweepUnit.calc_snd_counter (s : SweepUnit) :
    (s.calculate_next_frequency).2.counter = s.counter := by
  rw [SweepUnit.calc_snd]; split <;> rfl

theorem SweepUnit.calc_val_congr (s t : SweepUnit)
    (h1 : s.shadow_frequency = t.shadow_frequency) (h2 : s.shift = t.shift)
    (h3 : s.negate = t.negate) :
    (s.calculate_next_frequency).1 = (t.calculate_next_frequency).1 := by
  rw [SweepUnit.calc_val, SweepUnit.calc_val, h1, h2, h3]

theorem SweepUnit.shift_le (a b : Nat) : a >>> b ≤ a := by
  rw [Nat.shiftRight_eq_div_pow]
  exact Nat.div_le_self _ _

theorem SweepUnit.calc_val_add (s : SweepUnit) (hn : s.negate = false)
    (hle : s.shadow_frequency ≤ 2047) :
    (s.calculate_next_frequency).1
      = s.shadow_frequency + s.shadow_frequency >>> s.shift := by
  rw [SweepUnit.calc_val, if_neg (by simp [hn])]
  have hd := SweepUnit.shift_le s.shadow_frequency s.shift
  generalize hD : s.shadow_frequency >>> s.shift = D at hd ⊢
  omega

theorem SweepUnit.calc_val_sub (s : SweepUnit) (hn : s.negate = true)
    (hlt : s.shadow_frequency < 65536) :
    (s.calculate_next_frequency).1
      = s.shadow_frequency - s.shadow_frequency >>> s.shift := by
  rw [SweepUnit.calc_val, if_pos hn]
  have hd := SweepUnit.shift_le s.shadow_frequency s.shift
  generalize hD : s.shadow_frequency >>> s.shift = D at hd ⊢
  omega

/-- C4: on a sweep clock where the counter expires (period non-zero):
with negate clear and shadow frequency `F ≤ 2047`, an overflowing
candidate `F + (F >> S) > 2047` disables the channel; with negate set, a
candidate `F - (F >> S) > 2047` disables the channel; an in-range
candidate with shift 0 reloads the counter and changes neither the timer
frequency nor the shadow frequency. -/
theorem sweep_overflow_disables_channel (s : SweepUnit) (timer : PulseTimer) (ce : Bool)
    (hen : s.enabled = true) (hc : s.counter = 1) (hp : s.period ≠ 0) :
    (s.negate = false → s.shadow_frequency ≤ 2047 →
      2047 < s.shadow_frequency + s.shadow_frequency >>> s.shift →
      (s.clock timer ce).2.2 = false) ∧
    (s.negate = true → s.shadow_frequency < 65536 →
      2047 < s.shadow_frequency - s.shadow_frequency >>> s.shift →
      (s.clock timer ce).2.2 = false) ∧
    ((s.calculate_next_frequency).1 ≤ 2047 → s.shift = 0 →
      (s.clock timer ce).1.counter = s.counter_reload_value ∧
      (s.clock timer ce).2.1 = timer ∧
      (s.clock timer ce).1.shadow_frequency = s.shadow_frequency) := by
  refine ⟨?_, ?_, ?_⟩
  · intro hn hF hover
    unfold SweepUnit.clock
    rw [if_neg (by simp [hen]), hc]
    norm_num [hp]
    set E : SweepUnit := { s with counter := s.counter_reload_value } with hE
    set N : Nat × SweepUnit := E.calculate_next_frequency with hN
    have hval : N.1 = s.shadow_frequency + s.shadow_frequency >>> s.shift := by
      rw [hN]
      exact SweepUnit.calc_val_add E hn hF
    rw [if_neg (by omega), if_pos (by omega)]
  · intro hn hF hover
    unfold SweepUnit.clock
    rw [if_neg (by simp [hen]), hc]
    norm_num [hp]
    set E : SweepUnit := { s with counter := s.counter_reload_value } with hE
    set N : Nat × SweepUnit := E.calculate_next_frequency with hN
    have hval : N.1 = s.shadow_frequency - s.shadow_frequency >>> s.shift := by
      rw [hN]
      exact SweepUnit.calc_val_sub E hn hF
    rw [if_neg (by omega), if_pos (by omega)]
  · intro hcand hshift
    unfold SweepUnit.clock
    rw [if_neg (by simp [hen]), hc]
    norm_num [hp]
    set E : SweepUnit := { s with counter := s.counter_reload_value } with hE
    set N : Nat × SweepUnit := E.calculate_next_frequency with hN
    have hval : N.1 = (s.calculate_next_frequency).1 := by
      rw [hN]
      exact SweepUnit.calc_val_congr E s rfl rfl rfl
    have hsh : N.2.shift = s.shift := by
      rw [hN]
      exact SweepUnit.calc_snd_shift E
    rw [if_neg (by omega), if_neg (by omega)]
    refine ⟨?_, rfl, ?_⟩
    · have h1 : N.2.counter = E.counter := by
        rw [hN]
        exact SweepUnit.calc_snd_counter E
      exact h1
    · have h1 : N.2.shadow_frequency = E.shadow_frequency := by
        rw [hN]
        exact SweepUnit.calc_snd_shadow E
      exact h1

theorem sweep_overflow_disables_channel_witness :
    (({ enabled := true, shadow_frequency := 2047, counter := 1, period := 1, shift := 1,
        negate := false, calculated_with_negate_since_trigger := false } : SweepUnit).clock
      { frequency := 2047, phase := 0 } true).2.2 = false :=
  (sweep_overflow_disables_channel
    { enabled := true, shadow_frequency := 2047, counter := 1, period := 1, shift := 1,
      negate := false, calculated_with_negate_since_trigger := false }
    { frequency := 2047, phase := 0 } true rfl rfl (by decide)).1 rfl (by decide) (by decide)

/-- C5: when the sweep clock applies a frequency update (candidate
`≤ 2047`, shift non-zero), the candidate is written to both the shadow
frequency and the channel timer; a second candidate is then computed from
the new shadow value and the channel is disabled exactly when it exceeds
2047 — the second candidate itself is never written: shadow and timer
still hold the first candidate. -/
theorem sweep_second_overflow_check (s : SweepUnit) (timer : PulseTimer) (ce : Bool)
    (hen : s.enabled = true) (hc : s.counter = 1) (hp : s.period ≠ 0)
    (hnf : (s.calculate_next_frequency).1 ≤ 2047) (hs : s.shift ≠ 0) :
    (s.clock timer ce).1.shadow_frequency = (s.calculate_next_frequency).1 ∧
    (s.clock timer ce).2.1.frequency = (s.calculate_next_frequency).1 ∧
    (2047 < (SweepUnit.calculate_next_frequency
        { s with shadow_frequency := (s.calculate_next_frequency).1 }).1 →
      (s.clock timer ce).2.2 = false) ∧
    ((SweepUnit.calculate_next_frequency
        { s with shadow_frequency := (s.calculate_next_frequency).1 }).1 ≤ 2047 →
      (s.clock timer ce).2.2 = ce) := by
  have key : ∀ P : SweepUnit × PulseTimer × Bool → Prop,
      (∀ E N S2, E = ({ s with counter := s.counter_reload_value } : SweepUnit) →
        N = E.calculate_next_frequency →
        S2 = ({ N.2 with shadow_frequency := N.1 } : SweepUnit) →
        P ((S2.calculate_next_frequency).2, timer.write_frequency N.1,
           !decide (2047 < (S2.calculate_next_frequency).1) && ce)) →
      P (s.clock timer ce) := by
    intro P hP
    unfold SweepUnit.clock
    rw [if_neg (by simp [hen]), hc]
    norm_num [hp]
    set E : SweepUnit := { s with counter := s.counter_reload_value } with hE
    set N : Nat × SweepUnit := E.calculate_next_frequency with hN
    have hval : N.1 = (s.calculate_next_frequency).1 := by
      rw [hN]
      exact SweepUnit.calc_val_congr E s rfl rfl rfl
    have hsh : N.2.shift = s.shift := by
      rw [hN]
      exact SweepUnit.calc_snd_shift E
    rw [if_pos ⟨by omega, by omega⟩]
    exact hP E N _ hE hN rfl
  refine key (fun out =>
      out.1.shadow_frequency = (s.calculate_next_frequency).1 ∧
      out.2.1.frequency = (s.calculate_next_frequency).1 ∧
      (2047 < (SweepUnit.calculate_next_frequency
          { s with shadow_frequency := (s.calculate_next_frequency).1 }).1 →
        out.2.2 = false) ∧
      ((SweepUnit.calculate_next_frequency
          { s with shadow_frequency := (s.calculate_next_frequency).1 }).1 ≤ 2047 →
        out.2.2 = ce)) ?_
  intro E N S2 hE hN hS
  have hval : N.1 = (s.calculate_next_frequency).1 := by
    rw [hN, hE]
    exact SweepUnit.calc_val_congr _ s rfl rfl rfl
  have hsh : N.2.shift = s.shift := by
    rw [hN, hE]
    exact SweepUnit.calc_snd_shift _
  have hneg : N.2.negate = s.negate := by
    rw [hN, hE]
    exact SweepUnit.calc_snd_negate _
  have hval2 : (S2.calculate_next_frequency).1
      = (SweepUnit.calculate_next_frequency
          { s with shadow_frequency := (s.calculate_next_frequency).1 }).1 := by
    rw [hS]
    refine SweepUnit.calc_val_congr _ _ ?_ ?_ ?_
    · exact hval
    · exact hsh
    · exact hneg
  refine ⟨?_, ?_, ?_, ?_⟩
  · have h1 : (S2.calculate_next_frequency).2.shadow_frequency = S2.shadow_frequency :=
      SweepUnit.calc_snd_shadow S2
    have h2 : S2.shadow_frequency = N.1 := by rw [hS]
    exact h1.trans (h2.trans hval)
  · exact hval
  · intro h2047
    have hd : decide (2047 < (S2.calculate_next_frequency).1) = true := by
      rw [hval2]
      exact decide_eq_true h2047
    show (!decide (2047 < (S2.calculate_next_frequency).1) && ce) = false
    rw [hd]
    rfl
  · intro h2047
    have hd : decide (2047 < (S2.calculate_next_frequency).1) = false := by
      rw [hval2]
      exact decide_eq_false (by omega)
    show (!decide (2047 < (S2.calculate_next_frequency).1) && ce) = ce
    rw [hd]
    exact Bool.true_and ce

theorem sweep_second_overflow_check_witness :
    (({ enabled := true, shadow_frequency := 1365, counter := 1, period := 1, shift := 1,
        negate := false, calculated_with_negate_since_trigger := false } : SweepUnit).clock
      { frequency := 1365, phase := 0 } true).2.2 = false :=
  (sweep_second_overflow_check
    { enabled := true, shadow_frequency := 1365, counter := 1, period := 1, shift := 1,
      negate := false, calculated_with_negate_since_trigger := false }
    { frequency := 1365, phase := 0 } true rfl rfl (by decide) (by decide)
    (by decide)).2.2.1 (by decide)

/-! ### C2: invalid opcodes lock the CPU permanently -/

/-- C2: once an invalid opcode has been executed, every subsequent
`execute_instruction` call returns the CPU completely unchanged and
performs exactly one bus `idle` (no reads, writes or acknowledgements),
for every possible implementation `validExec` of the valid opcodes — the
Locked state is never exited.  Conversely, executing an invalid opcode
from a clean running state returns normally (no panic, `some`), entering
the Locked state. -/
theorem sm83_invalid_opcode_locks (validExec : Nat → Sm83 → GbBus → Sm83 × GbBus)
    (cpu : Sm83) (bus : GbBus) :
    (cpu.state.executed_invalid_opcode = true →
      Sm83.execute_instruction validExec cpu bus = some (cpu, bus.idle)) ∧
    (cpu.state.executed_invalid_opcode = false → cpu.state.halted = false →
      cpu.state.handling_interrupt = false →
      bus.mem cpu.registers.pc ∈ invalidOpcodes →
      (Sm83.execute_instruction validExec cpu bus).isSome = true ∧
      ∀ out : Sm83 × GbBus, Sm83.execute_instruction validExec cpu bus = some out →
        out.1.state.executed_invalid_opcode = true ∧
        out.1.registers.sp = cpu.registers.sp ∧
        out.2.events = bus.events
          ++ [GbBusEvent.read cpu.registers.pc (bus.mem cpu.registers.pc)]) := by
  constructor
  · intro h
    unfold Sm83.execute_instruction
    rw [if_pos h]
  · intro h0 hh hhi hop
    constructor
    · by_cases hpi : cpu.state.pending_ime_set <;>
        simp [Sm83.execute_instruction, Sm83.fetch_operand, Sm83.execute_opcode,
          Sm83.poll_for_interrupts, GbBus.read, h0, hh, hhi, hpi, hop]
    · intro out hout
      by_cases hpi : cpu.state.pending_ime_set <;>
        simp [Sm83.execute_instruction, Sm83.fetch_operand, Sm83.execute_opcode,
          Sm83.poll_for_interrupts, GbBus.read, h0, hh, hhi, hpi, hop] at hout <;>
        subst hout <;>
        simp [Sm83.poll_for_interrupts, GbBus.read]

theorem sm83_invalid_opcode_locks_witness :
    Sm83.execute_instruction (fun _ c b => (c, b))
      (⟨⟨0, ⟨false, false, false, false⟩, 0, 0, 0, 0, 0, 0, 0xFFFE, 0x100, false⟩,
        ⟨false, false, false, false, true⟩⟩ : Sm83)
      (⟨fun _ => 0, 0, 0, []⟩ : GbBus)
    = some
      ((⟨⟨0, ⟨false, false, false, false⟩, 0, 0, 0, 0, 0, 0, 0xFFFE, 0x100, false⟩,
         ⟨false, false, false, false, true⟩⟩ : Sm83),
       GbBus.idle (⟨fun _ => 0, 0, 0, []⟩ : GbBus)) :=
  (sm83_invalid_opcode_locks (fun _ c b => (c, b)) _ _).1 rfl

/-! ### C3: the interrupt service routine -/

/-- C3: when an interrupt is pending, the service routine idles, pushes
the pre-service PC (SP decremented by 2; high byte first at SP-1, then
low byte at SP-2), acknowledges exactly the highest-priority pending
source (a single `ack` event, clearing only that source's IF bit), sets
PC to that source's fixed vector, and clears IME; all other registers,
the CPU state flags, IE, and the rest of memory are unchanged.  The five
vectors are 0x40/0x48/0x50/0x58/0x60. -/
theorem sm83_isr_services_interrupt (cpu : Sm83) (bus : GbBus) (it : InterruptType)
    (hp : bus.highest_priority_interrupt = some it) :
    (cpu.execute_interrupt_service_routine bus).isSome = true ∧
    ∀ r : Sm83 × GbBus, cpu.execute_interrupt_service_routine bus = some r →
      r.1.registers.pc = it.interrupt_vector ∧
      r.1.registers.ime = false ∧
      r.1.registers.sp = (cpu.registers.sp + 65534) % 65536 ∧
      r.1.registers.a = cpu.registers.a ∧
      r.1.registers.f = cpu.registers.f ∧
      r.1.registers.b = cpu.registers.b ∧
      r.1.registers.c = cpu.registers.c ∧
      r.1.registers.d = cpu.registers.d ∧
      r.1.registers.e = cpu.registers.e ∧
      r.1.registers.h = cpu.registers.h ∧
      r.1.registers.l = cpu.registers.l ∧
      r.1.state = cpu.state ∧
      r.2.events = bus.events ++
        [GbBusEvent.idle, GbBusEvent.idle,
         GbBusEvent.write ((cpu.registers.sp + 65535) % 65536)
           ((cpu.registers.pc >>> 8) &&& 0xFF),
         GbBusEvent.write ((cpu.registers.sp + 65534) % 65536) (cpu.registers.pc &&& 0xFF),
         GbBusEvent.ack it, GbBusEvent.idle] ∧
      r.2.ifReg = bus.ifReg &&& (0xFF ^^^ (1 <<< it.flagBit)) ∧
      r.2.ieReg = bus.ieReg ∧
      r.2.mem ((cpu.registers.sp + 65535) % 65536) = (cpu.registers.pc >>> 8) &&& 0xFF ∧
      r.2.mem ((cpu.registers.sp + 65534) % 65536) = cpu.registers.pc &&& 0xFF ∧
      (∀ a, a ≠ (cpu.registers.sp + 65535) % 65536 →
        a ≠ (cpu.registers.sp + 65534) % 65536 → r.2.mem a = bus.mem a) ∧
      InterruptType.interrupt_vector InterruptType.VBlank = 0x40 ∧
      InterruptType.interrupt_vector InterruptType.LcdStatus = 0x48 ∧
      InterruptType.interrupt_vector InterruptType.Timer = 0x50 ∧
      InterruptType.interrupt_vector InterruptType.Serial = 0x58 ∧
      InterruptType.interrupt_vector InterruptType.Joypad = 0x60 := by
  have hp' : pendingInterruptFrom (bus.ifReg &&& bus.ieReg) = some it := hp
  have key : cpu.execute_interrupt_service_routine bus = some
      ({ registers := { cpu.registers with
            sp := ((cpu.registers.sp + 65535) % 65536 + 65535) % 65536,
            pc := it.interrupt_vector, ime := false },
         state := cpu.state },
       { mem := fun a =>
           if a = ((cpu.registers.sp + 65535) % 65536 + 65535) % 65536
           then cpu.registers.pc &&& 0xFF
           else if a = (cpu.registers.sp + 65535) % 65536
           then (cpu.registers.pc >>> 8) &&& 0xFF
           else bus.mem a,
         ifReg := bus.ifReg &&& (0xFF ^^^ (1 <<< it.flagBit)),
         ieReg := bus.ieReg,
         events := ((((bus.events ++ [GbBusEvent.idle]) ++ [GbBusEvent.idle])
             ++ [GbBusEvent.write ((cpu.registers.sp + 65535) % 65536)
                  ((cpu.registers.pc >>> 8) &&& 0xFF)])
             ++ [GbBusEvent.write (((cpu.registers.sp + 65535) % 65536 + 65535) % 65536)
                  (cpu.registers.pc &&& 0xFF)])
             ++ [GbBusEvent.ack it] ++ [GbBusEvent.idle] }) := by
    unfold Sm83.execute_interrupt_service_routine Sm83.push_stack_u16 Sm83.push_stack
    simp only [GbBus.idle, GbBus.write, GbBus.highest_priority_interrupt,
      GbBus.acknowledge_interrupt]
    rw [hp']
  have e2 : ((cpu.registers.sp + 65535) % 65536 + 65535) % 65536
      = (cpu.registers.sp + 65534) % 65536 := by omega
  have hne : (cpu.registers.sp + 65535) % 65536 ≠ (cpu.registers.sp + 65534) % 65536 := by
    omega
  constructor
  · rw [key]
    rfl
  · intro r hr
    rw [key] at hr
    have hr' := Option.some.inj hr
    subst hr'
    refine ⟨rfl, rfl, ?_, rfl, rfl, rfl, rfl, rfl, rfl, rfl, rfl, rfl, ?_, rfl, rfl,
      ?_, ?_, ?_, rfl, rfl, rfl, rfl, rfl⟩
    · exact e2
    · simp [e2]
    · simp only []
      rw [if_neg (by omega)]
      simp
    · simp only []
      rw [if_pos (by omega)]
    · intro a ha1 ha2
      simp only []
      rw [if_neg (by omega), if_neg ha1]


theorem sm83_isr_services_interrupt_witness :
    ((⟨⟨0, ⟨false, false, false, false⟩, 0, 0, 0, 0, 0, 0, 0xFFFE, 0x1234, true⟩,
        ⟨false, true, false, false, false⟩⟩ : Sm83).execute_interrupt_service_routine
      (⟨fun _ => 0, 1, 0xFF, []⟩ : GbBus)).isSome = true :=
  (sm83_isr_services_interrupt
    ⟨⟨0, ⟨false, false, false, false⟩, 0, 0, 0, 0, 0, 0, 0xFFFE, 0x1234, true⟩,
      ⟨false, true, false, false, false⟩⟩
    ⟨fun _ => 0, 1, 0xFF, []⟩ InterruptType.VBlank (by decide)).1

/-! ### C7: save persistence at frame boundaries -/

/-- C7 counterexample: the SMS/GG driver does **not** persist on every
frame-completing tick.  Concrete input: a tick that completes a frame
(`frame_count` going from 0 to 1) with battery-backed cartridge RAM `[1]`
marked dirty and every collaborator succeeding — the claim demands exactly
one `persist_save` call, but the driver makes none (the call list is
empty) and leaves the dirty flag set, because `1 % 60 ≠ 0`. -/
theorem smsgg_persist_skips_frames :
    smsggTickFrameBlock 0 true true [1] true true true
      = Except.ok (1, true, ([] : List (List Nat))) := by
  rfl

/-- C7 (amended): with render and audio succeeding, the Genesis driver
calls `persist_save` exactly once — with the cartridge-RAM contents, after
clearing the dirty flag — on a frame-completing tick whose RAM is
persistent, dirty and non-empty (a dirty empty RAM only clears the flag);
the SMS/GG driver does so only when the incremented frame count is a
multiple of 60.  Neither driver ever calls `persist_save` when no frame
completed, when the RAM is not persistent (battery-backed), or when it is
not dirty. -/
theorem tick_persist_save_policy (mem : GenSaveRam) (fc : Nat) (battery dirty : Bool)
    (ram : List Nat) (saveOk : Bool) :
    (genesisTickFrameBlock mem false true true saveOk
      = Except.ok (mem, [], TickEffect.None)) ∧
    (mem.persistent = false →
      genesisTickFrameBlock mem true true true saveOk
        = Except.ok (mem, [], TickEffect.FrameRendered)) ∧
    (mem.persistent = true → mem.dirty = false →
      genesisTickFrameBlock mem true true true saveOk
        = Except.ok ({ mem with dirty := false }, [], TickEffect.FrameRendered)) ∧
    (mem.persistent = true → mem.dirty = true → mem.ram ≠ [] → saveOk = true →
      genesisTickFrameBlock mem true true true saveOk
        = Except.ok ({ mem with dirty := false }, [mem.ram], TickEffect.FrameRendered)) ∧
    (mem.persistent = true → mem.dirty = true → mem.ram = [] →
      genesisTickFrameBlock mem true true true saveOk
        = Except.ok ({ mem with dirty := false }, [], TickEffect.FrameRendered)) ∧
    (smsggTickFrameBlock fc battery dirty ram false true saveOk
      = Except.ok (fc, dirty, [])) ∧
    ((fc + 1) % 60 = 0 → battery = true → dirty = true → saveOk = true →
      smsggTickFrameBlock fc battery dirty ram true true saveOk
        = Except.ok (fc + 1, false, [ram])) ∧
    (¬((fc + 1) % 60 = 0 ∧ battery = true ∧ dirty = true) →
      smsggTickFrameBlock fc battery dirty ram true true saveOk
        = Except.ok (fc + 1, dirty, [])) := by
  refine ⟨rfl, ?_, ?_, ?_, ?_, rfl, ?_, ?_⟩
  · intro h
    simp [genesisTickFrameBlock, h]
  · intro h1 h2
    simp [genesisTickFrameBlock, h1, h2]
  · intro h1 h2 h3 h4
    simp [genesisTickFrameBlock, h1, h2, h3, h4]
  · intro h1 h2 h3
    simp [genesisTickFrameBlock, h1, h2, h3]
  · intro h1 h2 h3 h4
    simp [smsggTickFrameBlock, h1, h2, h3, h4]
  · intro h
    simp [smsggTickFrameBlock, h]

theorem tick_persist_save_policy_witness :
    genesisTickFrameBlock ⟨true, true, [7]⟩ true true true true
      = Except.ok (⟨true, false, [7]⟩, [[7]], TickEffect.FrameRendered) :=
  (tick_persist_save_policy ⟨true, true, [7]⟩ 59 true true [7] true).2.2.2.1
    rfl rfl (by simp) rfl

/-! ### C1: main-bus totality, panics and open bus -/

theorem and_7FFF_1F (m : Nat) : (m &&& 0x7FFF) &&& 0x1F = m &&& 0x1F := by
  have h : (0x7FFF : Nat) &&& 0x1F = 0x1F := by decide
  rw [Nat.and_assoc, h]

theorem mask_idem (a : Nat) : (a &&& 0xFFFFFF) &&& 0xFFFFFF = a &&& 0xFFFFFF := by
  have h : (0xFFFFFF : Nat) &&& 0xFFFFFF = 0xFFFFFF := by decide
  rw [Nat.and_assoc, h]

theorem read_vdp_byte_total (b : MainBus) (address : Nat)
    (h : ¬(0x0C ≤ address &&& 0x1F ∧ address &&& 0x1F ≤ 0x0F)) :
    (b.read_vdp_byte address).isSome = true := by
  unfold MainBus.read_vdp_byte
  have hx : address &&& 0x1F ≤ 31 := Nat.and_le_right
  generalize hgen : address &&& 0x1F = x at hx h ⊢
  interval_cases x <;> simp_all

theorem write_vdp_byte_total (b : MainBus) (address value : Nat)
    (h : ¬(0x08 ≤ address &&& 0x1F ∧ address &&& 0x1F ≤ 0x0F)) :
    (b.write_vdp_byte address value).isSome = true := by
  unfold MainBus.write_vdp_byte
  have hx : address &&& 0x1F ≤ 31 := Nat.and_le_right
  generalize hgen : address &&& 0x1F = x at hx h ⊢
  interval_cases x <;> simp_all

theorem z80_read_memory_low_total (b : MainBus) (address : Nat)
    (h7 : address ≤ 0x7FFF)
    (h : ¬(0x7F00 ≤ address ∧ address ≤ 0x7F1F
        ∧ 0x0C ≤ address &&& 0x1F ∧ address &&& 0x1F ≤ 0x0F)) :
    (b.z80_read_memory_low address).isSome = true := by
  unfold MainBus.z80_read_memory_low
  split_ifs with h1 h2 h3 h4 h5 h6
  all_goals first
    | rfl
    | omega
    | exact read_vdp_byte_total b address fun hc => h ⟨by omega, by omega, hc.1, hc.2⟩

theorem z80_write_memory_low_total (b : MainBus) (address value : Nat)
    (h7 : address ≤ 0x7FFF)
    (h : ¬(0x7F00 ≤ address ∧ address ≤ 0x7F1F
        ∧ 0x08 ≤ address &&& 0x1F ∧ address &&& 0x1F ≤ 0x0F)) :
    (b.z80_write_memory_low address value).isSome = true := by
  unfold MainBus.z80_write_memory_low
  split_ifs with h1 h2 h3 h4 h5 h6
  all_goals first
    | rfl
    | omega
    | (dsimp only; split_ifs <;> rfl)
    | exact write_vdp_byte_total b address value fun hc => h ⟨by omega, by omega, hc.1, hc.2⟩

theorem read_byte_total (b : MainBus) (a : Nat)
    (h : ¬readBytePanics (a &&& 0xFFFFFF)) :
    (b.read_byte a).isSome = true := by
  unfold MainBus.read_byte
  simp only [readBytePanics, vdpByteReadHole, not_or] at h
  obtain ⟨ht, hv, hz⟩ := h
  dsimp only
  split_ifs with g1 g2 g3 g4 g5 g6 g7 g8
  all_goals first
    | rfl
    | omega
    | exact z80_read_memory_low_total b _ Nat.and_le_right fun hc =>
        hz ⟨by omega, by omega, hc.1, hc.2.1,
          (and_7FFF_1F (a &&& 0xFFFFFF)) ▸ hc.2.2.1,
          (and_7FFF_1F (a &&& 0xFFFFFF)) ▸ hc.2.2.2⟩
    | exact read_vdp_byte_total b _ fun hc => hv ⟨by omega, by omega, hc.1, hc.2⟩

theorem write_byte_total (b : MainBus) (a v : Nat)
    (h : ¬writeBytePanics (a &&& 0xFFFFFF)) :
    (b.write_byte a v).isSome = true := by
  unfold MainBus.write_byte
  simp only [writeBytePanics, vdpByteWriteHole, not_or] at h
  obtain ⟨ht, hv, hz⟩ := h
  dsimp only
  split_ifs with g1 g2 g3 g4 g5 g6 g7 g8
  all_goals first
    | rfl
    | omega
    | exact z80_write_memory_low_total b _ v Nat.and_le_right fun hc =>
        hz ⟨by omega, by omega, hc.1, hc.2.1,
          (and_7FFF_1F (a &&& 0xFFFFFF)) ▸ hc.2.2.1,
          (and_7FFF_1F (a &&& 0xFFFFFF)) ▸ hc.2.2.2⟩
    | exact write_vdp_byte_total b _ v fun hc => hv ⟨by omega, by omega, hc.1, hc.2⟩

theorem read_word_total (b : MainBus) (a : Nat)
    (h : ¬readWordPanics (a &&& 0xFFFFFF)) :
    (b.read_word a).isSome = true := by
  simp only [readWordPanics, vdpByteReadHole, not_or] at h
  obtain ⟨ht, hz⟩ := h
  unfold MainBus.read_word
  dsimp only
  by_cases hA : 0xA00000 ≤ a &&& 0xFFFFFF ∧ a &&& 0xFFFFFF ≤ 0xA0FFFF
  · rw [if_neg (by omega), if_pos hA]
    have hb : (b.read_byte (a &&& 0xFFFFFF)).isSome = true := by
      refine read_byte_total b _ ?_
      rw [mask_idem]
      rintro (hc | hc | hc)
      · omega
      · omega
      · exact hz ⟨hc.1, hc.2.1, hc.2.2.1, hc.2.2.2.1, hc.2.2.2.2.1, hc.2.2.2.2.2⟩
    obtain ⟨p, hp⟩ := Option.isSome_iff_exists.mp hb
    rw [hp]
    rfl
  · split_ifs with g1 g2 g3 g4 g5 g6 g7 g8 g9
    all_goals first | rfl | omega

theorem write_word_total (b : MainBus) (a v : Nat)
    (h : ¬writeWordPanics (a &&& 0xFFFFFF)) :
    (b.write_word a v).isSome = true := by
  simp only [writeWordPanics, vdpByteWriteHole, not_or] at h
  obtain ⟨ht, hz⟩ := h
  unfold MainBus.write_word
  dsimp only
  by_cases hA : 0xA00000 ≤ a &&& 0xFFFFFF ∧ a &&& 0xFFFFFF ≤ 0xA0FFFF
  · rw [if_neg (by omega), if_pos hA]
    refine write_byte_total b _ _ ?_
    rw [mask_idem]
    rintro (hc | hc | hc)
    · omega
    · omega
    · exact hz ⟨hc.1, hc.2.1, hc.2.2.1, hc.2.2.2.1, hc.2.2.2.2.1, hc.2.2.2.2.2⟩
  · split_ifs with g1 g2 g3 g4 g5 g6 g7 g8 g9
    all_goals first | rfl | omega

theorem read_byte_open_bus (b : MainBus) (a : Nat)
    (h : readByteUnmapped (a &&& 0xFFFFFF)) :
    b.read_byte a = some (0xFF, b) := by
  obtain ⟨h1, h2, h3, h4, h5, h6, h7⟩ := h
  unfold MainBus.read_byte
  dsimp only
  rw [if_neg h1, if_neg h2, if_neg h3, if_neg h4, if_neg h5, if_neg h6, if_neg h7]

theorem read_word_open_bus (b : MainBus) (a : Nat)
    (h : readWordUnmapped (a &&& 0xFFFFFF)) :
    b.read_word a = some (0xFFFF, b) := by
  obtain ⟨h1, h2, h3, h4, h5, h6, h7⟩ := h
  unfold MainBus.read_word
  dsimp only
  rw [if_neg h1, if_neg h2, if_neg h3, if_neg h4, if_neg h5, if_neg (by omega),
    if_neg (by omega), if_neg (by omega), if_neg h7]

theorem write_byte_open_bus (b : MainBus) (a v : Nat)
    (h : writeByteUnmapped (a &&& 0xFFFFFF)) :
    b.write_byte a v = some b := by
  obtain ⟨h1, h2, h3, h4, h5, h6, h7, h8⟩ := h
  unfold MainBus.write_byte
  dsimp only
  rw [if_neg h1, if_neg h2, if_neg h3, if_neg h4, if_neg h5, if_neg h6, if_neg h7,
    if_neg h8]

theorem write_word_open_bus (b : MainBus) (a v : Nat)
    (h : writeWordUnmapped (a &&& 0xFFFFFF)) :
    b.write_word a v = some b := by
  obtain ⟨h1, h2, h3, h4, h5, h6, h7, h8⟩ := h
  unfold MainBus.write_word
  dsimp only
  rw [if_neg h1, if_neg h2, if_neg h3, if_neg h4, if_neg h5, if_neg h6,
    if_neg (by omega), if_neg (by omega), if_neg h8]

/-- C1 (amended): every main-bus operation is total — returns a value
rather than panicking — outside its precise panic set (the `todo!` timer
registers `$A13000`-`$A130FF`, and the byte-size VDP dispatch holes where
`unreachable!` aborts); and on every address with no mapped owner, byte
and word reads return the open-bus constants `0xFF`/`0xFFFF` and writes
are silently dropped with the entire machine state unchanged. -/
theorem main_bus_total_and_open_bus (b : MainBus) (a v : Nat) :
    (¬readBytePanics (a &&& 0xFFFFFF) → (b.read_byte a).isSome = true) ∧
    (¬readWordPanics (a &&& 0xFFFFFF) → (b.read_word a).isSome = true) ∧
    (¬writeBytePanics (a &&& 0xFFFFFF) → (b.write_byte a v).isSome = true) ∧
    (¬writeWordPanics (a &&& 0xFFFFFF) → (b.write_word a v).isSome = true) ∧
    (readByteUnmapped (a &&& 0xFFFFFF) → b.read_byte a = some (0xFF, b)) ∧
    (readWordUnmapped (a &&& 0xFFFFFF) → b.read_word a = some (0xFFFF, b)) ∧
    (writeByteUnmapped (a &&& 0xFFFFFF) → b.write_byte a v = some b) ∧
    (writeWordUnmapped (a &&& 0xFFFFFF) → b.write_word a v = some b) :=
  ⟨read_byte_total b a, read_word_total b a, write_byte_total b a v,
   write_word_total b a v, read_byte_open_bus b a, read_word_open_bus b a,
   write_byte_open_bus b a v, write_word_open_bus b a v⟩

theorem main_bus_total_and_open_bus_witness :
    MainBus.read_byte sampleMainBus 0x500000 = some (0xFF, sampleMainBus) ∧
    MainBus.read_word sampleMainBus 0x500000 = some (0xFFFF, sampleMainBus) ∧
    MainBus.write_byte sampleMainBus 0x500000 0 = some sampleMainBus ∧
    MainBus.write_word sampleMainBus 0x500000 0 = some sampleMainBus :=
  ⟨(main_bus_total_and_open_bus sampleMainBus 0x500000 0).2.2.2.2.1
     (by unfold readByteUnmapped; decide),
   (main_bus_total_and_open_bus sampleMainBus 0x500000 0).2.2.2.2.2.1
     (by unfold readWordUnmapped; decide),
   (main_bus_total_and_open_bus sampleMainBus 0x500000 0).2.2.2.2.2.2.1
     (by unfold writeByteUnmapped; decide),
   (main_bus_total_and_open_bus sampleMainBus 0x500000 0).2.2.2.2.2.2.2
     (by unfold writeWordUnmapped; decide)⟩

/-- C1 counterexample: the main-bus operations are not total over the
24-bit address space.  All four operations abort (`todo!("timer
register")`) at address `$A13000`, and byte-size VDP access aborts
(`unreachable!`) at `$C0000C` (read) and `$C00008` (write), although
each of these addresses lies inside a mapped region. -/
theorem main_bus_panics_on_timer_and_vdp_holes :
    MainBus.read_byte sampleMainBus 0xA13000 = none ∧
    MainBus.read_word sampleMainBus 0xA13000 = none ∧
    MainBus.write_byte sampleMainBus 0xA13000 0 = none ∧
    MainBus.write_word sampleMainBus 0xA13000 0 = none ∧
    MainBus.read_byte sampleMainBus 0xC0000C = none ∧
    MainBus.write_byte sampleMainBus 0xC00008 0 = none := by
  refine ⟨?_, ?_, ?_, ?_, ?_, ?_⟩ <;> rfl

end JGen

